import Mathlib

/-!
Verification development for the uCAN protocol library
(src/uCAN/Src/ucan.c, ucan_runtime.c, ucan_debug.c and src/uCAN/Inc headers).

Shallow embedding conventions:
  - C `uint32_t` values are `Nat`, reduced `% 2 ^ 32` exactly where the C
    arithmetic can wrap (tick subtraction, the tick-diff macro).
  - Byte-addressable application storage is a function `Mem : Nat → Nat`
    (address to stored byte value); a C `uint8_t*` is an address.
  - Fallible HAL primitives (`HAL_CAN_AddTxMessage`, `HAL_CAN_ConfigFilter`,
    `HAL_CAN_Start`, `HAL_CAN_ActivateNotification`, `HAL_CAN_GetRxMessage`)
    are passed as explicit Bool/Option oracles; `HAL_GetTick()` is a `now`
    argument.  Bus output is traced as a list of `Frame`s.
  - C functions that mutate through pointers are state-passing: they return
    the new structure / memory next to their status.
  - NULL-pointer guard branches on arguments that the Lean embedding passes
    by value are represented where a claim needs them (`Option` for packet
    lists, explicit null flags for `uCAN_Init`) and documented otherwise.
-/

/-- Status codes (ucan_types.h plus the extended error codes that
ucan.c / ucan_runtime.c / ucan_debug.c use).  The ucan_types.h revision
checked into src/ is an older iteration (it still has `UCAN_DUPLICATE_ID`
and lacks the `UCAN_ERROR_*` codes); the constructors below follow the
names actually used by the compiled sources. -/
inductive UCAN_StatusTypeDef where
  | UCAN_NOT_INITIALIZED
  | UCAN_OK
  | UCAN_ERROR
  | UCAN_MISSING_VAL
  | UCAN_NO_CONNECTION
  | UCAN_NO_CHANGED_VAL
  | UCAN_TIMEOUT
  | UCAN_INVALID_PARAM
  | UCAN_BUSY
  | UCAN_ERROR_DUPLICATE_ID
  | UCAN_ERROR_FILTER_CONFIG
  | UCAN_ERROR_CAN_START
  | UCAN_ERROR_CAN_NOTIFICATION
  | UCAN_ERROR_UNKNOWN_ID
  deriving DecidableEq, Repr

open UCAN_StatusTypeDef

/-- Connection status of a client (ucan_types.h, UCAN_ConnectionStatusTypeDef). -/
inductive UCAN_ConnectionStatusTypeDef where
  | UCAN_CONN_ACTIVE
  | UCAN_CONN_LOST
  | UCAN_CONN_WAITING
  | UCAN_CONN_TIMEOUT
  deriving DecidableEq, Repr

open UCAN_ConnectionStatusTypeDef

/-- Node role (ucan_types.h, UCAN_NodeRole). -/
inductive UCAN_NodeRole where
  | UCAN_ROLE_MASTER
  | UCAN_ROLE_CLIENT
  | UCAN_ROLE_NONE
  deriving DecidableEq, Repr

open UCAN_NodeRole

/-- Payload item type (ucan_types.h, UCAN_DataType). -/
inductive UCAN_DataType where
  | UCAN_U8
  | UCAN_U16
  | UCAN_U32
  deriving DecidableEq, Repr

open UCAN_DataType

/-- Byte-addressable application storage: address to stored byte. -/
abbrev Mem := Nat → Nat

/-- One bound value: the address of its storage and its declared type
(ucan_types.h, UCAN_Data; the `void*` is the address). -/
structure UCAN_Data where
  ptr : Nat
  type : UCAN_DataType
  deriving DecidableEq, Repr

/-- Declarative packet configuration (ucan_types.h, UCAN_PacketConfig);
`item_count` is `items.length` (the C array carries the count separately). -/
structure UCAN_PacketConfig where
  id : Nat
  items : List UCAN_Data
  deriving DecidableEq, Repr

/-- Finalized packet (ucan_types.h, UCAN_Packet): CAN id, data length code,
and the per-byte storage addresses (`uint8_t* bits[8]`). -/
structure UCAN_Packet where
  id : Nat
  dlc : Nat
  bits : List Nat
  deriving DecidableEq, Repr

/-- Packet holder (ucan_types.h, UCAN_PacketHolder); `count` is
`packets.length`. -/
structure UCAN_PacketHolder where
  packets : List UCAN_Packet
  deriving DecidableEq, Repr

/-- Modelled from the spec: the `UCAN_Client` structure used by ucan.c and
ucan_runtime.c (the newer ucan_types.h revision defining it is not in src/;
the checked-in header still has the plain `clientIdList` iteration).  Fields
follow the spec's PeerInfo — identifier, last response tick, connection
state — restricted to the fields the sources dereference
(`.id`, `.responseTick`, `.status`). -/
structure UCAN_Client where
  id : Nat
  responseTick : Nat
  status : UCAN_ConnectionStatusTypeDef
  deriving DecidableEq, Repr

/-- Modelled from the spec: the `UCAN_NodeInfo` revision used by the
sources (role, selfId, masterId, client array, and the master's
`sentTick`; the src/ header is an older iteration without `clients` /
`sentTick`).  `clientCount` is `clients.length`. -/
structure UCAN_NodeInfo where
  role : UCAN_NodeRole
  selfId : Nat
  masterId : Nat
  clients : List UCAN_Client
  sentTick : Nat
  deriving DecidableEq, Repr

/-- CAN filter configuration, reduced to the only field the uCAN sources
branch on (`FilterActivation`); `true` is CAN_FILTER_ENABLE. -/
structure CAN_FilterTypeDef where
  FilterActivation : Bool
  deriving DecidableEq, Repr

/-- The uCAN handle (ucan_types.h, UCAN_HandleTypeDef).  The `hcan`
peripheral pointer lives outside the model (HAL outcomes are oracles). -/
structure UCAN_HandleTypeDef where
  filter : CAN_FilterTypeDef
  node : UCAN_NodeInfo
  txHolder : UCAN_PacketHolder
  rxHolder : UCAN_PacketHolder
  status : UCAN_StatusTypeDef
  deriving DecidableEq, Repr

/-- TX/RX configuration (ucan_types.h, UCAN_Config); `none` is a NULL
packet-list pointer. -/
structure UCAN_Config where
  txPacketList : Option (List UCAN_PacketConfig)
  rxPacketList : Option (List UCAN_PacketConfig)
  deriving DecidableEq, Repr

/-- One frame submitted to the bus (id, DLC, payload bytes): the trace of a
`HAL_CAN_AddTxMessage` call. -/
structure Frame where
  id : Nat
  dlc : Nat
  data : List Nat
  deriving DecidableEq, Repr

/-! Constants from ucan_macros.h. -/

def UINT32_MAX : Nat := 4294967295

def UCAN_HANDSHAKE_REQUEST_VALUE : Nat := 0xA5

def UCAN_HANDSHAKE_RESPONSE_VALUE : Nat := 0x5A

def UCAN_HANDSHAKE_INTERVAL_MS : Nat := 500

def UCAN_HANDSHAKE_TIMEOUT_MS : Nat := 700

def UCAN_HANDSHAKE_LOST_MS : Nat := 2000

/-- Wrapping `uint32_t` subtraction `a - b`. -/
def u32_sub (a b : Nat) : Nat :=
  (a % 2 ^ 32 + 2 ^ 32 - b % 2 ^ 32) % 2 ^ 32

/-- UCAN_HANDSHAKE_TICK_DIFF (ucan_macros.h:64-65):
`(sentTick <= responseTick) ? (responseTick - sentTick)
: (UINT32_MAX - responseTick + sentTick + 1U)`, in `uint32_t` arithmetic. -/
def UCAN_HANDSHAKE_TICK_DIFF (sentTick responseTick : Nat) : Nat :=
  let s := sentTick % 2 ^ 32
  let r := responseTick % 2 ^ 32
  if s ≤ r then r - s else (UINT32_MAX - r + s + 1) % 2 ^ 32

/-- UCAN_HANDSHAKE_IS_TIMEOUT (ucan_macros.h:72-74). -/
def UCAN_HANDSHAKE_IS_TIMEOUT (sentTick responseTick : Nat) : Bool :=
  UCAN_HANDSHAKE_TIMEOUT_MS < UCAN_HANDSHAKE_TICK_DIFF sentTick responseTick &&
    UCAN_HANDSHAKE_TICK_DIFF sentTick responseTick < UCAN_HANDSHAKE_LOST_MS

/-- UCAN_HANDSHAKE_IS_LOST (ucan_macros.h:81-82). -/
def UCAN_HANDSHAKE_IS_LOST (sentTick responseTick : Nat) : Bool :=
  UCAN_HANDSHAKE_LOST_MS ≤ UCAN_HANDSHAKE_TICK_DIFF sentTick responseTick

/-- UCAN_CHECK_READY (ucan_macros.h:104-130) as a guard function: `some e`
means the macro's early `return e` fires, `none` means control falls
through.  The `ucan == NULL` branch is not modelled (the embedding passes
the handle by value). -/
def checkReady (s : UCAN_StatusTypeDef) : Option UCAN_StatusTypeDef :=
  if s = UCAN_NOT_INITIALIZED then some UCAN_NOT_INITIALIZED
  else if s = UCAN_ERROR then some UCAN_ERROR
  else if s = UCAN_ERROR_DUPLICATE_ID then some UCAN_ERROR_DUPLICATE_ID
  else if s = UCAN_ERROR_FILTER_CONFIG then some UCAN_ERROR_FILTER_CONFIG
  else if s = UCAN_ERROR_CAN_START then some UCAN_ERROR_CAN_START
  else if s = UCAN_ERROR_CAN_NOTIFICATION then some UCAN_ERROR_CAN_NOTIFICATION
  else if s = UCAN_MISSING_VAL then some UCAN_MISSING_VAL
  else none

/-! Debug / validation functions (ucan_debug.c). -/

/-- Byte width of a data type, as summed by uCAN_Debug_Calculate_DLC. -/
def typeSize : UCAN_DataType → Nat
  | UCAN_U8 => 1
  | UCAN_U16 => 2
  | UCAN_U32 => 4

/-- uCAN_Debug_Calculate_DLC (ucan_debug.c:54-77): sums the byte size of
every item (the C `default` branch is unreachable, the enum is total). -/
def uCAN_Debug_Calculate_DLC (pkt : UCAN_PacketConfig) : Nat :=
  pkt.items.foldl (fun dlc it => dlc + typeSize it.type) 0

/-- Per-packet loop body of uCAN_Debug_CheckPacketConfig
(ucan_debug.c:104-124): first packet whose DLC is 0 or exceeds 8 yields
UCAN_MISSING_VAL.  (uCAN_Debug_CheckIsDataType only runs `assert_param`
and its result is discarded by the caller, so it has no effect here.) -/
def checkPacketsDLC : List UCAN_PacketConfig → UCAN_StatusTypeDef
  | [] => UCAN_OK
  | pkt :: rest =>
    let dlc := uCAN_Debug_Calculate_DLC pkt
    if 8 < dlc ∨ dlc = 0 then UCAN_MISSING_VAL else checkPacketsDLC rest

/-- uCAN_Debug_CheckPacketConfig (ucan_debug.c:96-128).  `configList = none`
is a NULL list pointer; `count` is `packetHolder->count`.  The C loop reads
`configList[i]` for `i < count`; the model iterates over
`l.take count` (the caller guarantees `count` entries exist — main.c sets
the count with UCAN_PACKET_COUNT over the same array). -/
def uCAN_Debug_CheckPacketConfig (configList : Option (List UCAN_PacketConfig))
    (count : Nat) : UCAN_StatusTypeDef :=
  match configList with
  | none => UCAN_INVALID_PARAM
  | some l => if count = 0 then UCAN_INVALID_PARAM else checkPacketsDLC (l.take count)

/-- Byte-slot expansion of one item (ucan_debug.c:175-195): U8 binds its
own address, U16/U32 bind the successive byte addresses
`&((uint8_t*)ptr)[0..]` — little-endian on the target. -/
def itemBytes (d : UCAN_Data) : List Nat :=
  match d.type with
  | UCAN_U8 => [d.ptr]
  | UCAN_U16 => [d.ptr, d.ptr + 1]
  | UCAN_U32 => [d.ptr, d.ptr + 1, d.ptr + 2, d.ptr + 3]

/-- The per-packet body of uCAN_Debug_FinalizePacket (ucan_debug.c:160-199):
id copied, dlc computed, and `bits[]` filled with the items' byte
addresses in item order. -/
def finalizeOnePacket (cfg : UCAN_PacketConfig) : UCAN_Packet :=
  { id := cfg.id
    dlc := uCAN_Debug_Calculate_DLC cfg
    bits := cfg.items.foldr (fun it acc => itemBytes it ++ acc) [] }

/-- Insertion step for the id-sort. -/
def insertById (p : UCAN_Packet) : List UCAN_Packet → List UCAN_Packet
  | [] => [p]
  | q :: rest => if p.id ≤ q.id then p :: q :: rest else q :: insertById p rest

/-- The `qsort(..., uCAN_Runtime_ComparePacketId)` call of
uCAN_Debug_FinalizePacket (ucan_debug.c:202), modelled as insertion sort
by ascending id: both produce an id-sorted permutation, and on the
duplicate-free holders produced after validation that permutation is
unique (qsort is unstable, so tie order is unspecified in C as well). -/
def sortById : List UCAN_Packet → List UCAN_Packet
  | [] => []
  | p :: rest => insertById p (sortById rest)

/-- uCAN_Debug_FinalizePacket (ucan_debug.c:149-207): finalize the first
`count` configurations and sort the holder by CAN id.  The NULL guard
(ucan_debug.c:152) is outside the model (arguments are values). -/
def uCAN_Debug_FinalizePacket (configPackets : List UCAN_PacketConfig)
    (count : Nat) : List UCAN_Packet :=
  sortById ((configPackets.take count).map finalizeOnePacket)

/-- uCAN_Debug_CheckUniqueID (ucan_debug.c:371-400): count occurrences of
`id` across the TX and RX id lists; more than one is a duplicate. -/
def uCAN_Debug_CheckUniqueID (id : Nat) (txIds rxIds : List Nat) : UCAN_StatusTypeDef :=
  if 1 < txIds.count id + rxIds.count id then UCAN_ERROR_DUPLICATE_ID else UCAN_OK

/-- One of the two for-loops of uCAN_Debug_CheckUniquePackets: check every
id of `ids`, returning the first non-OK result. -/
def checkUniqueLoop (ids txIds rxIds : List Nat) : UCAN_StatusTypeDef :=
  match ids with
  | [] => UCAN_OK
  | i :: rest =>
    let s := uCAN_Debug_CheckUniqueID i txIds rxIds
    if s ≠ UCAN_OK then s else checkUniqueLoop rest txIds rxIds

/-- The id list of a packet holder. -/
def holderIds (h : UCAN_PacketHolder) : List Nat :=
  h.packets.map (fun p => p.id)

/-- uCAN_Debug_CheckUniquePackets (ucan_debug.c:315-359): every TX id then
every RX id is checked against both holders; the first failure is latched
into `ucan->status` and returned. -/
def uCAN_Debug_CheckUniquePackets (ucan : UCAN_HandleTypeDef) :
    UCAN_StatusTypeDef × UCAN_HandleTypeDef :=
  let txIds := holderIds ucan.txHolder
  let rxIds := holderIds ucan.rxHolder
  let s1 := checkUniqueLoop txIds txIds rxIds
  if s1 ≠ UCAN_OK then (s1, { ucan with status := s1 })
  else
    let s2 := checkUniqueLoop rxIds txIds rxIds
    if s2 ≠ UCAN_OK then (s2, { ucan with status := s2 })
    else (UCAN_OK, ucan)

/-! Runtime functions (ucan_runtime.c). -/

/-- The payload assembly of uCAN_Runtime_SendPacket (ucan_runtime.c:74-76):
`data[i] = *(packet->bits[i])` for `i < dlc`, packed with the packet's id
and DLC into the submitted frame. -/
def frameOfPacket (mem : Mem) (p : UCAN_Packet) : Frame :=
  { id := p.id, dlc := p.dlc, data := (p.bits.take p.dlc).map mem }

/-- uCAN_Runtime_SendPacket (ucan_runtime.c:56-85): assemble the frame and
submit it; `halTxOk` is the HAL_CAN_AddTxMessage outcome.  NULL guards are
outside the model. -/
def uCAN_Runtime_SendPacket (mem : Mem) (p : UCAN_Packet) (halTxOk : Bool) :
    UCAN_StatusTypeDef × Frame :=
  (if halTxOk then UCAN_OK else UCAN_ERROR, frameOfPacket mem p)

/-- uCAN_Runtime_SendPing (ucan_runtime.c:109-141): master-only; if
`now - sentTick >= 500` (wrapping u32 subtraction) build the 1-byte
0xA5 ping with the node's own id, record `sentTick = now`, and return the
transmission outcome; otherwise UCAN_BUSY with no state change and no bus
traffic. -/
def uCAN_Runtime_SendPing (node : UCAN_NodeInfo) (now : Nat) (halTxOk : Bool) :
    UCAN_StatusTypeDef × UCAN_NodeInfo × List Frame :=
  if node.role ≠ UCAN_ROLE_MASTER then (UCAN_ERROR, node, [])
  else if UCAN_HANDSHAKE_INTERVAL_MS ≤ u32_sub now node.sentTick then
    let node' := { node with sentTick := now }
    let fr : Frame := { id := node.selfId, dlc := 1, data := [UCAN_HANDSHAKE_REQUEST_VALUE] }
    ((if halTxOk then UCAN_OK else UCAN_ERROR), node', [fr])
  else (UCAN_BUSY, node, [])

/-- uCAN_Runtime_SendPong (ucan_runtime.c:157-181): client-only 1-byte
0x5A reply with the node's own id. -/
def uCAN_Runtime_SendPong (node : UCAN_NodeInfo) (halTxOk : Bool) :
    UCAN_StatusTypeDef × List Frame :=
  if node.role ≠ UCAN_ROLE_CLIENT then (UCAN_ERROR, [])
  else
    let fr : Frame := { id := node.selfId, dlc := 1, data := [UCAN_HANDSHAKE_RESPONSE_VALUE] }
    ((if halTxOk then UCAN_OK else UCAN_ERROR), [fr])

/-- Write `*(bits[i]) = aData[i]` in ascending i (the update loop of
uCAN_Runtime_UpdatePacket, ucan_runtime.c:218-220). -/
def writeBytes : Mem → List Nat → List Nat → Mem
  | mem, a :: as, d :: ds => writeBytes (Function.update mem a d) as ds
  | mem, _, _ => mem

/-- uCAN_Runtime_UpdatePacket (ucan_runtime.c:197-223): find the RX packet
with the received id and copy the payload into its bound storage.  The C
`bsearch` over the qsort-sorted holder is modelled as `find?`: on an
id-sorted, duplicate-free holder (the invariant uCAN_Start establishes)
both return exactly the packet with the searched id. -/
def uCAN_Runtime_UpdatePacket (rxHolder : UCAN_PacketHolder) (StdId : Nat)
    (aData : List Nat) (mem : Mem) : UCAN_StatusTypeDef × Mem :=
  match rxHolder.packets.find? (fun p => p.id == StdId) with
  | none => (UCAN_ERROR_UNKNOWN_ID, mem)
  | some p => (UCAN_OK, writeBytes mem (p.bits.take p.dlc) (aData.take p.dlc))

/-- The `handshakeFound->responseTick = HAL_GetTick()` write
(ucan_runtime.c:272) on the first client with the matching id. -/
def updateFirstClient (now StdId : Nat) : List UCAN_Client → List UCAN_Client
  | [] => []
  | c :: rest =>
    if c.id = StdId then { c with responseTick := now } :: rest
    else c :: updateFirstClient now StdId rest

/-- uCAN_Runtime_UpdateHandshake (ucan_runtime.c:244-306).  Master: look
the sender up in the client list (bsearch, modelled as in
uCAN_Runtime_UpdatePacket), demand the 0x5A response byte, and stamp the
client's responseTick.  Client: demand the master's id and the 0xA5
request byte, stamp own sentTick, and reply with a pong whose result is
discarded.  Role NONE ignores the frame. -/
def uCAN_Runtime_UpdateHandshake (node : UCAN_NodeInfo) (now StdId : Nat)
    (aData : List Nat) (halTxOk : Bool) :
    UCAN_StatusTypeDef × UCAN_NodeInfo × List Frame :=
  match node.role with
  | UCAN_ROLE_MASTER =>
    if (node.clients.find? (fun c => c.id == StdId)).isNone then
      (UCAN_ERROR_UNKNOWN_ID, node, [])
    else if aData.getD 0 0 ≠ UCAN_HANDSHAKE_RESPONSE_VALUE then (UCAN_ERROR, node, [])
    else (UCAN_OK, { node with clients := updateFirstClient now StdId node.clients }, [])
  | UCAN_ROLE_CLIENT =>
    if StdId ≠ node.masterId then (UCAN_ERROR_UNKNOWN_ID, node, [])
    else if aData.getD 0 0 ≠ UCAN_HANDSHAKE_REQUEST_VALUE then (UCAN_ERROR, node, [])
    else
      let node' := { node with sentTick := now }
      (UCAN_OK, node', (uCAN_Runtime_SendPong node' halTxOk).2)
  | UCAN_ROLE_NONE => (UCAN_OK, node, [])

/-! Public operations (ucan.c). -/

/-- The default filter ucan.c:55-64 assigns when the handle's filter is
disabled (all-pass, activation enabled). -/
def defaultFilterConfig : CAN_FilterTypeDef := { FilterActivation := true }

/-- uCAN_Init (ucan.c:78-96): NULL guards on `ucan->hcan` and
`ucan->node.clients` (passed as explicit flags), default filter
assignment, then `status = UCAN_OK` unconditionally. -/
def uCAN_Init (hcanNull clientsNull : Bool) (ucan : UCAN_HandleTypeDef) :
    UCAN_StatusTypeDef × UCAN_HandleTypeDef :=
  if hcanNull || clientsNull then (UCAN_INVALID_PARAM, ucan)
  else
    let ucan1 :=
      if ucan.filter.FilterActivation = false then { ucan with filter := defaultFilterConfig }
      else ucan
    (UCAN_OK, { ucan1 with status := UCAN_OK })

/-- uCAN_Start (ucan.c:123-180): ready gate, TX/RX config validation
(latching the failed check's status), finalization of both holders,
duplicate-id check (latching UCAN_ERROR_DUPLICATE_ID), then the three HAL
setup calls (filter config, CAN start, RX notification), each latching its
own error.  On success the status is left as it was (ucan.c never sets
UCAN_OK here).  `filterOk/canStartOk/notifOk` are the HAL outcomes. -/
def uCAN_Start (ucan : UCAN_HandleTypeDef) (config : UCAN_Config)
    (filterOk canStartOk notifOk : Bool) :
    UCAN_StatusTypeDef × UCAN_HandleTypeDef :=
  match checkReady ucan.status with
  | some e => (e, ucan)
  | none =>
    let txListCheck := uCAN_Debug_CheckPacketConfig config.txPacketList ucan.txHolder.packets.length
    let rxListCheck := uCAN_Debug_CheckPacketConfig config.rxPacketList ucan.rxHolder.packets.length
    if txListCheck ≠ UCAN_OK then (txListCheck, { ucan with status := txListCheck })
    else if rxListCheck ≠ UCAN_OK then (rxListCheck, { ucan with status := rxListCheck })
    else
      let ucan1 := { ucan with
        txHolder := ⟨uCAN_Debug_FinalizePacket (config.txPacketList.getD []) ucan.txHolder.packets.length⟩
        rxHolder := ⟨uCAN_Debug_FinalizePacket (config.rxPacketList.getD []) ucan.rxHolder.packets.length⟩ }
      let u := uCAN_Debug_CheckUniquePackets ucan1
      if u.1 ≠ UCAN_OK then (UCAN_ERROR_DUPLICATE_ID, { u.2 with status := UCAN_ERROR_DUPLICATE_ID })
      else if ¬ filterOk then (UCAN_ERROR_FILTER_CONFIG, { u.2 with status := UCAN_ERROR_FILTER_CONFIG })
      else if ¬ canStartOk then (UCAN_ERROR_CAN_START, { u.2 with status := UCAN_ERROR_CAN_START })
      else if ¬ notifOk then (UCAN_ERROR_CAN_NOTIFICATION, { u.2 with status := UCAN_ERROR_CAN_NOTIFICATION })
      else (UCAN_OK, u.2)

/-- The TX loop of uCAN_SendAll (ucan.c:200-207): sequential sends, early
UCAN_ERROR on the first HAL failure.  `k` counts prior transmissions so
`halTxOk` can be indexed per call. -/
def sendLoop (mem : Mem) (halTxOk : Nat → Bool) :
    List UCAN_Packet → Nat → UCAN_StatusTypeDef × List Frame
  | [], _ => (UCAN_OK, [])
  | p :: rest, k =>
    let s := uCAN_Runtime_SendPacket mem p (halTxOk k)
    if s.1 ≠ UCAN_OK then (UCAN_ERROR, [s.2])
    else
      let r := sendLoop mem halTxOk rest (k + 1)
      (r.1, s.2 :: r.2)

/-- uCAN_SendAll (ucan.c:194-213): ready gate, send every TX packet
(fail-fast), then attempt the presence ping, whose return value is
discarded; the function then returns UCAN_OK. -/
def uCAN_SendAll (ucan : UCAN_HandleTypeDef) (mem : Mem) (now : Nat)
    (halTxOk : Nat → Bool) :
    UCAN_StatusTypeDef × UCAN_HandleTypeDef × List Frame :=
  match checkReady ucan.status with
  | some e => (e, ucan, [])
  | none =>
    let r := sendLoop mem halTxOk ucan.txHolder.packets 0
    if r.1 ≠ UCAN_OK then (UCAN_ERROR, ucan, r.2)
    else
      let ping := uCAN_Runtime_SendPing ucan.node now (halTxOk ucan.txHolder.packets.length)
      (UCAN_OK, { ucan with node := ping.2.1 }, r.2 ++ ping.2.2)

/-- uCAN_Update (ucan.c:234-270): ready gate; `rxMsg = none` is a failed
HAL_CAN_GetRxMessage (UCAN_ERROR); otherwise update the matching RX packet,
falling back to handshake processing when the id is unknown, propagating a
failed handshake status. -/
def uCAN_Update (ucan : UCAN_HandleTypeDef) (mem : Mem) (now : Nat)
    (rxMsg : Option (Nat × List Nat)) (halTxOk : Bool) :
    UCAN_StatusTypeDef × UCAN_HandleTypeDef × Mem × List Frame :=
  match checkReady ucan.status with
  | some e => (e, ucan, mem, [])
  | none =>
    match rxMsg with
    | none => (UCAN_ERROR, ucan, mem, [])
    | some (stdId, data) =>
      let pr := uCAN_Runtime_UpdatePacket ucan.rxHolder stdId data mem
      if pr.1 = UCAN_ERROR_UNKNOWN_ID then
        let hr := uCAN_Runtime_UpdateHandshake ucan.node now stdId data halTxOk
        (hr.1, { ucan with node := hr.2.1 }, pr.2, hr.2.2)
      else if pr.1 ≠ UCAN_OK then (pr.1, ucan, pr.2, [])
      else (UCAN_OK, ucan, pr.2, [])

/-- The classification of one responding client inside the uCAN_Handshake
loop (ucan.c:310-324): IS_TIMEOUT first, then IS_LOST, else ACTIVE. -/
def classifyStatus (sentTick responseTick : Nat) : UCAN_ConnectionStatusTypeDef :=
  if UCAN_HANDSHAKE_IS_TIMEOUT sentTick responseTick then UCAN_CONN_TIMEOUT
  else if UCAN_HANDSHAKE_IS_LOST sentTick responseTick then UCAN_CONN_LOST
  else UCAN_CONN_ACTIVE

/-- The client loop of uCAN_Handshake (ucan.c:298-328), threading the
aggregate `connectionErrorFlag`: a zero responseTick sets the flag and
skips the client; otherwise the classification is written to the client
and a non-ACTIVE result sets the flag. -/
def handshakeLoop (sentTick : Nat) :
    List UCAN_Client → UCAN_StatusTypeDef → UCAN_StatusTypeDef × List UCAN_Client
  | [], flag => (flag, [])
  | c :: rest, flag =>
    if c.responseTick = 0 then
      let r := handshakeLoop sentTick rest UCAN_ERROR
      (r.1, c :: r.2)
    else
      let st := classifyStatus sentTick c.responseTick
      let flag' := if st = UCAN_CONN_ACTIVE then flag else UCAN_ERROR
      let r := handshakeLoop sentTick rest flag'
      (r.1, { c with status := st } :: r.2)

/-- uCAN_Handshake (ucan.c:290-331): ready gate, then the classification
loop over `node.clients`, returning the aggregate flag. -/
def uCAN_Handshake (ucan : UCAN_HandleTypeDef) :
    UCAN_StatusTypeDef × UCAN_HandleTypeDef :=
  match checkReady ucan.status with
  | some e => (e, ucan)
  | none =>
    let r := handshakeLoop ucan.node.sentTick ucan.node.clients UCAN_OK
    (r.1, { ucan with node := { ucan.node with clients := r.2 } })

/-- Little-endian recomposition of a bound value from its storage bytes:
the "value" a field holds, byte-for-byte as the target (a little-endian
Cortex-M) stores it. -/
def readValue (mem : Mem) (d : UCAN_Data) : Nat :=
  match d.type with
  | UCAN_U8 => mem d.ptr
  | UCAN_U16 => mem d.ptr + 256 * mem (d.ptr + 1)
  | UCAN_U32 =>
    mem d.ptr + 256 * mem (d.ptr + 1) + 65536 * mem (d.ptr + 2) +
      16777216 * mem (d.ptr + 3)

/-- The TX-to-RX flow of the round-trip property: finalize the TX
configuration, assemble the payload exactly as uCAN_Runtime_SendPacket
does, and deliver it through uCAN_Runtime_UpdatePacket against the
independently finalized RX holder. -/
def roundTripUpdate (txCfg rxCfg : UCAN_PacketConfig) (mem rxMem : Mem) :
    UCAN_StatusTypeDef × Mem :=
  uCAN_Runtime_UpdatePacket ⟨uCAN_Debug_FinalizePacket [rxCfg] 1⟩ rxCfg.id
    ((uCAN_Runtime_SendPacket mem
        ((uCAN_Debug_FinalizePacket [txCfg] 1).getD 0 { id := 0, dlc := 0, bits := [] })
        true).2.data)
    rxMem

/-- The statuses the ready gate intercepts: exactly those uCAN_Start can
latch, except UCAN_INVALID_PARAM, plus UCAN_NOT_INITIALIZED and
UCAN_ERROR. -/
def gatedStatuses : List UCAN_StatusTypeDef :=
  [UCAN_NOT_INITIALIZED, UCAN_ERROR, UCAN_ERROR_DUPLICATE_ID, UCAN_ERROR_FILTER_CONFIG,
   UCAN_ERROR_CAN_START, UCAN_ERROR_CAN_NOTIFICATION, UCAN_MISSING_VAL]

/-- The spec's classification of a delta: Timeout strictly between the two
thresholds, Lost at or above LOST_MS, Active otherwise. -/
def specClassify (delta : Nat) : UCAN_ConnectionStatusTypeDef :=
  if UCAN_HANDSHAKE_TIMEOUT_MS < delta ∧ delta < UCAN_HANDSHAKE_LOST_MS then UCAN_CONN_TIMEOUT
  else if UCAN_HANDSHAKE_LOST_MS ≤ delta then UCAN_CONN_LOST
  else UCAN_CONN_ACTIVE

/-! Theorems. -/

/-- Claim C2 (code evidence): UCAN_HANDSHAKE_TICK_DIFF agrees with the
claim on the non-wrapping cases (100,100 gives 0 and 100,900 gives 800),
but at the wraparound input sentTick=4294967290, responseTick=5 it
evaluates to 4294967285, not the claimed elapsed time 11: the macro's else
branch subtracts the response tick instead of the sent tick from
UINT32_MAX. -/
theorem tickDiff_values :
    UCAN_HANDSHAKE_TICK_DIFF 4294967290 5 = 4294967285 ∧
    UCAN_HANDSHAKE_TICK_DIFF 100 100 = 0 ∧
    UCAN_HANDSHAKE_TICK_DIFF 100 900 = 800 ∧
    (4294967285 : Nat) ≠ 11 := by
  refine ⟨?_, ?_, ?_, ?_⟩ <;> decide

/-- Claim C9: on a handle with non-null hcan and clients (the two null
flags false), uCAN_Init returns UCAN_OK and overwrites any prior status —
latched start failures included — with UCAN_OK, which the ready gate lets
through. -/
theorem uCAN_Init_clears_latched_status (ucan : UCAN_HandleTypeDef) :
    (uCAN_Init false false ucan).1 = UCAN_OK ∧
    (uCAN_Init false false ucan).2.status = UCAN_OK ∧
    checkReady (uCAN_Init false false ucan).2.status = none := by
  unfold uCAN_Init
  by_cases h : ucan.filter.FilterActivation = false <;>
    simp [h, checkReady]

/-- A valid one-byte packet configuration. -/
def validU8Cfg : UCAN_PacketConfig :=
  { id := 0x100, items := [{ ptr := 0, type := UCAN_U8 }] }

/-- Claim C7 counterexample: a declared packet count of 129 — above the
spec's protocol maximum of 128 — with 129 valid one-byte packets is
accepted by uCAN_Debug_CheckPacketConfig, which has no upper-bound check. -/
theorem checkPacketConfig_accepts_129 :
    uCAN_Debug_CheckPacketConfig (some (List.replicate 129 validU8Cfg)) 129 = UCAN_OK ∧
    128 < 129 := by
  refine ⟨?_, ?_⟩ <;> decide

/-- checkPacketsDLC succeeds exactly when every packet's computed DLC is
in 1..8. -/
theorem checkPacketsDLC_ok_iff (L : List UCAN_PacketConfig) :
    checkPacketsDLC L = UCAN_OK ↔
      ∀ pkt ∈ L, 1 ≤ uCAN_Debug_Calculate_DLC pkt ∧ uCAN_Debug_Calculate_DLC pkt ≤ 8 := by
  induction L with
  | nil => simp [checkPacketsDLC]
  | cons pkt rest ih =>
    by_cases h : 8 < uCAN_Debug_Calculate_DLC pkt ∨ uCAN_Debug_Calculate_DLC pkt = 0
    · simp only [checkPacketsDLC, if_pos h]
      constructor
      · intro hfalse; exact absurd hfalse (by decide)
      · intro hall
        have := hall pkt (List.mem_cons_self pkt rest)
        omega
    · simp only [checkPacketsDLC, if_neg h, ih]
      constructor
      · intro hall
        intro q hq
        rcases List.mem_cons.mp hq with hq | hq
        · subst hq; omega
        · exact hall q hq
      · intro hall q hq
        exact hall q (List.mem_cons_of_mem _ hq)

/-- Claim C7 amended: uCAN_Debug_CheckPacketConfig fails on a NULL list
and on a declared count of zero, and otherwise succeeds exactly when every
checked packet's DLC is in 1..8 — it enforces no 128-frame maximum. -/
theorem checkPacketConfig_characterization
    (configList : Option (List UCAN_PacketConfig)) (count : Nat) :
    uCAN_Debug_CheckPacketConfig configList 0 = UCAN_INVALID_PARAM ∧
    uCAN_Debug_CheckPacketConfig none count = UCAN_INVALID_PARAM ∧
    (uCAN_Debug_CheckPacketConfig configList count = UCAN_OK ↔
      ∃ l, configList = some l ∧ count ≠ 0 ∧
        ∀ pkt ∈ l.take count,
          1 ≤ uCAN_Debug_Calculate_DLC pkt ∧ uCAN_Debug_Calculate_DLC pkt ≤ 8) := by
  refine ⟨?_, rfl, ?_⟩
  · cases configList <;> simp [uCAN_Debug_CheckPacketConfig]
  · cases configList with
    | none => simp [uCAN_Debug_CheckPacketConfig]
    | some l =>
      by_cases hc : count = 0
      · simp [uCAN_Debug_CheckPacketConfig, hc]
      · simp [uCAN_Debug_CheckPacketConfig, hc, checkPacketsDLC_ok_iff]

/-- A master node whose last ping tick is 0 (fresh after startup). -/
def pingNode : UCAN_NodeInfo :=
  { role := UCAN_ROLE_MASTER, selfId := 0x010, masterId := 0, clients := [], sentTick := 0 }

/-- Claim C6 counterexample: with sentTick = 0 the first ping attempt at
tick 100 is rate-limited (100 - 0 < 500): uCAN_Runtime_SendPing returns
UCAN_BUSY and leaves sentTick at 0, where the claim expects success. -/
theorem sendPing_at_100_is_busy :
    (uCAN_Runtime_SendPing pingNode 100 true).1 = UCAN_BUSY ∧
    (uCAN_Runtime_SendPing pingNode 100 true).2.1.sentTick = 0 ∧
    UCAN_BUSY ≠ UCAN_OK := by
  refine ⟨?_, ?_, ?_⟩ <;> decide

/-- Claim C6 amended: on a master with sentTick = 0, uCAN_Runtime_SendPing
at tick 100 returns UCAN_BUSY without touching the node (the 500 ms
interval since tick 0 has not elapsed), at tick 300 again UCAN_BUSY, and
at tick 600 it succeeds and records sentTick = 600. -/
theorem sendPing_rate_limiting (node : UCAN_NodeInfo)
    (hrole : node.role = UCAN_ROLE_MASTER) (h0 : node.sentTick = 0) :
    (uCAN_Runtime_SendPing node 100 true).1 = UCAN_BUSY ∧
    (uCAN_Runtime_SendPing node 100 true).2.1 = node ∧
    (uCAN_Runtime_SendPing node 300 true).1 = UCAN_BUSY ∧
    (uCAN_Runtime_SendPing node 300 true).2.1 = node ∧
    (uCAN_Runtime_SendPing node 600 true).1 = UCAN_OK ∧
    (uCAN_Runtime_SendPing node 600 true).2.1.sentTick = 600 := by
  have h100 : u32_sub 100 node.sentTick = 100 := by rw [h0]; decide
  have h300 : u32_sub 300 node.sentTick = 300 := by rw [h0]; decide
  have h600 : u32_sub 600 node.sentTick = 600 := by rw [h0]; decide
  refine ⟨?_, ?_, ?_, ?_, ?_, ?_⟩ <;>
    simp [uCAN_Runtime_SendPing, hrole, h100, h300, h600, UCAN_HANDSHAKE_INTERVAL_MS]

/-- Witness for the amended claim C6 at the concrete fresh master node. -/
theorem sendPing_rate_limiting_witness :
    (uCAN_Runtime_SendPing pingNode 100 true).1 = UCAN_BUSY ∧
    (uCAN_Runtime_SendPing pingNode 100 true).2.1 = pingNode ∧
    (uCAN_Runtime_SendPing pingNode 300 true).1 = UCAN_BUSY ∧
    (uCAN_Runtime_SendPing pingNode 300 true).2.1 = pingNode ∧
    (uCAN_Runtime_SendPing pingNode 600 true).1 = UCAN_OK ∧
    (uCAN_Runtime_SendPing pingNode 600 true).2.1.sentTick = 600 :=
  sendPing_rate_limiting pingNode rfl rfl

/-- Every status in gatedStatuses makes UCAN_CHECK_READY return that very
status. -/
theorem checkReady_gated (s : UCAN_StatusTypeDef) (hs : s ∈ gatedStatuses) :
    checkReady s = some s := by
  fin_cases hs <;> rfl

/-- Claim C3 amended: for every status the ready gate checks — every
status uCAN_Start can latch except UCAN_INVALID_PARAM, plus
UCAN_NOT_INITIALIZED and UCAN_ERROR — uCAN_SendAll, uCAN_Update and
uCAN_Handshake immediately return that same status with the handle,
memory and bus trace untouched. -/
theorem readyGate_blocks (ucan : UCAN_HandleTypeDef) (mem : Mem) (now : Nat)
    (halTxOk : Nat → Bool) (rxMsg : Option (Nat × List Nat)) (pongOk : Bool)
    (hs : ucan.status ∈ gatedStatuses) :
    uCAN_SendAll ucan mem now halTxOk = (ucan.status, ucan, []) ∧
    uCAN_Update ucan mem now rxMsg pongOk = (ucan.status, ucan, mem, []) ∧
    uCAN_Handshake ucan = (ucan.status, ucan) := by
  have h := checkReady_gated ucan.status hs
  refine ⟨?_, ?_, ?_⟩ <;> simp [uCAN_SendAll, uCAN_Update, uCAN_Handshake, h]

/-- A handle as uCAN_Init leaves it (status UCAN_OK), master role, empty
holders. -/
def cexHandle : UCAN_HandleTypeDef :=
  { filter := { FilterActivation := true }
    node := { role := UCAN_ROLE_MASTER, selfId := 0x010, masterId := 0, clients := [], sentTick := 0 }
    txHolder := ⟨[]⟩
    rxHolder := ⟨[]⟩
    status := UCAN_OK }

/-- A configuration whose TX packet list pointer is NULL. -/
def cexConfig : UCAN_Config := { txPacketList := none, rxPacketList := none }

/-- Claim C3 counterexample: uCAN_Start fails and latches
UCAN_INVALID_PARAM, yet uCAN_SendAll on the latched handle passes the
ready gate (which never tests UCAN_INVALID_PARAM), returns UCAN_OK
instead of the latched status, emits a ping frame on the bus, and writes
node.sentTick — side effects against an unready node. -/
theorem invalidParam_escapes_readyGate :
    (uCAN_Start cexHandle cexConfig true true true).1 = UCAN_INVALID_PARAM ∧
    (uCAN_Start cexHandle cexConfig true true true).2.status = UCAN_INVALID_PARAM ∧
    (uCAN_SendAll (uCAN_Start cexHandle cexConfig true true true).2
        (fun _ => 0) 600 (fun _ => true)).1 = UCAN_OK ∧
    (uCAN_SendAll (uCAN_Start cexHandle cexConfig true true true).2
        (fun _ => 0) 600 (fun _ => true)).2.2 =
      [{ id := 0x010, dlc := 1, data := [UCAN_HANDSHAKE_REQUEST_VALUE] }] ∧
    (uCAN_SendAll (uCAN_Start cexHandle cexConfig true true true).2
        (fun _ => 0) 600 (fun _ => true)).2.1.node.sentTick = 600 ∧
    UCAN_OK ≠ UCAN_INVALID_PARAM := by
  refine ⟨?_, ?_, ?_, ?_, ?_, ?_⟩ <;> decide

/-- A latched handle for the ready-gate witness: as if uCAN_Start had
failed its TX config check with UCAN_MISSING_VAL. -/
def gatedHandle : UCAN_HandleTypeDef :=
  { filter := { FilterActivation := true }
    node := { role := UCAN_ROLE_MASTER, selfId := 0x010, masterId := 0
              clients := [{ id := 0x100, responseTick := 0, status := UCAN_CONN_WAITING }]
              sentTick := 0 }
    txHolder := ⟨[{ id := 0x200, dlc := 1, bits := [0] }]⟩
    rxHolder := ⟨[]⟩
    status := UCAN_MISSING_VAL }

/-- Witness for the amended claim C3 at a concrete latched handle. -/
theorem readyGate_blocks_witness :
    uCAN_SendAll gatedHandle (fun _ => 0) 600 (fun _ => true) =
      (UCAN_MISSING_VAL, gatedHandle, []) ∧
    uCAN_Update gatedHandle (fun _ => 0) 600 none false =
      (UCAN_MISSING_VAL, gatedHandle, (fun _ => 0), []) ∧
    uCAN_Handshake gatedHandle = (UCAN_MISSING_VAL, gatedHandle) :=
  readyGate_blocks gatedHandle (fun _ => 0) 600 (fun _ => true) none false (by decide)

/-- The per-id uniqueness loop succeeds exactly when every listed id
occurs at most once across both holders. -/
theorem checkUniqueLoop_ok_iff (ids txIds rxIds : List Nat) :
    checkUniqueLoop ids txIds rxIds = UCAN_OK ↔
      ∀ i ∈ ids, txIds.count i + rxIds.count i ≤ 1 := by
  induction ids with
  | nil => simp [checkUniqueLoop]
  | cons i rest ih =>
    by_cases h : 1 < txIds.count i + rxIds.count i
    · have hid : uCAN_Debug_CheckUniqueID i txIds rxIds = UCAN_ERROR_DUPLICATE_ID := by
        simp [uCAN_Debug_CheckUniqueID, h]
      simp only [checkUniqueLoop, hid]
      rw [if_pos (by decide : (UCAN_ERROR_DUPLICATE_ID : UCAN_StatusTypeDef) ≠ UCAN_OK)]
      constructor
      · intro hfalse
        exact absurd hfalse (by decide)
      · intro hall
        exact absurd (hall i (List.mem_cons_self i rest)) (by omega)
    · have hid : uCAN_Debug_CheckUniqueID i txIds rxIds = UCAN_OK := by
        simp [uCAN_Debug_CheckUniqueID, h]
      simp only [checkUniqueLoop, hid]
      rw [if_neg (by simp : ¬((UCAN_OK : UCAN_StatusTypeDef) ≠ UCAN_OK)), ih]
      constructor
      · intro hrest q hq
        rcases List.mem_cons.mp hq with rfl | hq
        · omega
        · exact hrest q hq
      · intro hall q hq
        exact hall q (List.mem_cons_of_mem _ hq)

/-- The per-id uniqueness loop returns UCAN_OK or UCAN_ERROR_DUPLICATE_ID
and nothing else. -/
theorem checkUniqueLoop_ok_or_dup (ids txIds rxIds : List Nat) :
    checkUniqueLoop ids txIds rxIds = UCAN_OK ∨
      checkUniqueLoop ids txIds rxIds = UCAN_ERROR_DUPLICATE_ID := by
  induction ids with
  | nil => left; rfl
  | cons i rest ih =>
    by_cases h : 1 < txIds.count i + rxIds.count i
    · have hid : uCAN_Debug_CheckUniqueID i txIds rxIds = UCAN_ERROR_DUPLICATE_ID := by
        simp [uCAN_Debug_CheckUniqueID, h]
      right
      simp only [checkUniqueLoop, hid]
      rw [if_pos (by decide : (UCAN_ERROR_DUPLICATE_ID : UCAN_StatusTypeDef) ≠ UCAN_OK)]
    · have hid : uCAN_Debug_CheckUniqueID i txIds rxIds = UCAN_OK := by
        simp [uCAN_Debug_CheckUniqueID, h]
      simp only [checkUniqueLoop, hid]
      rw [if_neg (by simp : ¬((UCAN_OK : UCAN_StatusTypeDef) ≠ UCAN_OK))]
      exact ih


/-- Claim C4: the combined uniqueness check returns UCAN_OK exactly when
the concatenated TX and RX id lists are duplicate-free, and returns
UCAN_ERROR_DUPLICATE_ID exactly when some id occurs at least twice across
them. -/
theorem checkUniquePackets_iff (ucan : UCAN_HandleTypeDef) :
    ((uCAN_Debug_CheckUniquePackets ucan).1 = UCAN_OK ↔
      (holderIds ucan.txHolder ++ holderIds ucan.rxHolder).Nodup) ∧
    ((uCAN_Debug_CheckUniquePackets ucan).1 = UCAN_ERROR_DUPLICATE_ID ↔
      ∃ i, 2 ≤ (holderIds ucan.txHolder ++ holderIds ucan.rxHolder).count i) := by
  set tx := holderIds ucan.txHolder
  set rx := holderIds ucan.rxHolder
  have hres : (uCAN_Debug_CheckUniquePackets ucan).1 = UCAN_OK ↔
      (checkUniqueLoop tx tx rx = UCAN_OK ∧ checkUniqueLoop rx tx rx = UCAN_OK) := by
    unfold uCAN_Debug_CheckUniquePackets
    by_cases h1 : checkUniqueLoop tx tx rx = UCAN_OK
    · by_cases h2 : checkUniqueLoop rx tx rx = UCAN_OK
      · simp [h1, h2]
      · simp [h1, h2]
    · simp [h1]
  have hdich : (uCAN_Debug_CheckUniquePackets ucan).1 = UCAN_OK ∨
      (uCAN_Debug_CheckUniquePackets ucan).1 = UCAN_ERROR_DUPLICATE_ID := by
    unfold uCAN_Debug_CheckUniquePackets
    by_cases h1 : checkUniqueLoop tx tx rx = UCAN_OK
    · by_cases h2 : checkUniqueLoop rx tx rx = UCAN_OK
      · left; simp [h1, h2]
      · rcases checkUniqueLoop_ok_or_dup rx tx rx with h | h
        · exact absurd h h2
        · right; simp [h1, h2, h]
    · rcases checkUniqueLoop_ok_or_dup tx tx rx with h | h
      · exact absurd h h1
      · right; simp [h1, h]
  have hnodup : (checkUniqueLoop tx tx rx = UCAN_OK ∧ checkUniqueLoop rx tx rx = UCAN_OK) ↔
      (tx ++ rx).Nodup := by
    rw [checkUniqueLoop_ok_iff, checkUniqueLoop_ok_iff, List.nodup_iff_count_le_one]
    constructor
    · rintro ⟨hA, hB⟩ a
      rw [List.count_append]
      by_cases ha : a ∈ tx
      · exact hA a ha
      · by_cases hb : a ∈ rx
        · exact hB a hb
        · have h1 : tx.count a = 0 := List.count_eq_zero.mpr ha
          have h2 : rx.count a = 0 := List.count_eq_zero.mpr hb
          omega
    · intro h
      refine ⟨fun a _ => ?_, fun a _ => ?_⟩ <;>
        · have := h a; rw [List.count_append] at this; exact this
  have hOK : (uCAN_Debug_CheckUniquePackets ucan).1 = UCAN_OK ↔ (tx ++ rx).Nodup :=
    hres.trans hnodup
  refine ⟨hOK, ?_, ?_⟩
  · intro hdup
    have hne : ¬ (tx ++ rx).Nodup := by
      intro hn
      rw [hOK.mpr hn] at hdup
      exact absurd hdup (by decide)
    rw [List.nodup_iff_count_le_one] at hne
    push_neg at hne
    obtain ⟨a, ha⟩ := hne
    exact ⟨a, by omega⟩
  · rintro ⟨a, ha⟩
    rcases hdich with h | h
    · exfalso
      have hn := hOK.mp h
      rw [List.nodup_iff_count_le_one] at hn
      have := hn a
      omega
    · exact h

/-- If every transmission in the TX loop succeeds, the loop reports
UCAN_OK. -/
theorem sendLoop_all_ok (mem : Mem) (halTxOk : Nat → Bool) (ps : List UCAN_Packet) :
    ∀ k, (∀ j, j < ps.length → halTxOk (k + j) = true) →
      (sendLoop mem halTxOk ps k).1 = UCAN_OK := by
  induction ps with
  | nil => intro k _; rfl
  | cons p rest ih =>
    intro k hk
    have h0 : halTxOk k = true := by simpa using hk 0 (by simp)
    have hrest : ∀ j, j < rest.length → halTxOk (k + 1 + j) = true := by
      intro j hj
      have := hk (j + 1) (by simpa using Nat.succ_lt_succ hj)
      simpa [Nat.add_assoc, Nat.add_comm 1 j] using this
    simp [sendLoop, uCAN_Runtime_SendPacket, h0, ih (k + 1) hrest]

/-- Claim C8: on a handle that passes the ready gate, if every data-packet
transmission succeeds, uCAN_SendAll returns UCAN_OK no matter what the
trailing uCAN_Runtime_SendPing call returns — UCAN_BUSY, UCAN_ERROR from
a non-master role, or a failed ping transmission are all discarded. -/
theorem sendAll_discards_ping (ucan : UCAN_HandleTypeDef) (mem : Mem) (now : Nat)
    (halTxOk : Nat → Bool) (hready : checkReady ucan.status = none)
    (hok : ∀ j, j < ucan.txHolder.packets.length → halTxOk j = true) :
    (uCAN_SendAll ucan mem now halTxOk).1 = UCAN_OK := by
  have hl := sendLoop_all_ok mem halTxOk ucan.txHolder.packets 0 (by simpa using hok)
  simp [uCAN_SendAll, hready, hl]

/-- A ready master handle with one TX packet, for the C8 witness. -/
def sendAllHandle : UCAN_HandleTypeDef :=
  { filter := { FilterActivation := true }
    node := { role := UCAN_ROLE_MASTER, selfId := 0x010, masterId := 0, clients := [], sentTick := 0 }
    txHolder := ⟨[{ id := 0x100, dlc := 1, bits := [0] }]⟩
    rxHolder := ⟨[]⟩
    status := UCAN_OK }

/-- HAL outcome for the C8 witness: the data packet (index 0) succeeds,
the ping transmission (index 1) fails. -/
def sendAllHalOk : Nat → Bool := fun j => j == 0

/-- Witness for claim C8: the data packet goes out, the ping's own HAL
failure is discarded, uCAN_SendAll still returns UCAN_OK. -/
theorem sendAll_discards_ping_witness :
    (uCAN_SendAll sendAllHandle (fun _ => 7) 600 sendAllHalOk).1 = UCAN_OK :=
  sendAll_discards_ping sendAllHandle (fun _ => 7) 600 sendAllHalOk rfl
    (fun j hj => by
      have hj0 : j = 0 := by
        have : j < 1 := by simpa [sendAllHandle] using hj
        omega
      simp [hj0, sendAllHalOk])

/-- The client list produced by the uCAN_Handshake loop: responding
clients get the code's classification written, silent clients are
untouched; the threaded flag does not influence the writes. -/
theorem handshakeLoop_clients (sentTick : Nat) (cs : List UCAN_Client) :
    ∀ flag, (handshakeLoop sentTick cs flag).2 =
      cs.map (fun c => if c.responseTick = 0 then c
        else { c with status := classifyStatus sentTick c.responseTick }) := by
  induction cs with
  | nil => intro flag; rfl
  | cons c rest ih =>
    intro flag
    by_cases h : c.responseTick = 0
    · simp [handshakeLoop, h, ih]
    · simp [handshakeLoop, h, ih]

/-- The aggregate flag of the uCAN_Handshake loop is UCAN_OK exactly when
it starts UCAN_OK and every client responded and classifies ACTIVE. -/
theorem handshakeLoop_flag (sentTick : Nat) (cs : List UCAN_Client) :
    ∀ flag, ((handshakeLoop sentTick cs flag).1 = UCAN_OK ↔
      (flag = UCAN_OK ∧ ∀ c ∈ cs, c.responseTick ≠ 0 ∧
        classifyStatus sentTick c.responseTick = UCAN_CONN_ACTIVE)) := by
  induction cs with
  | nil => intro flag; simp [handshakeLoop]
  | cons c rest ih =>
    intro flag
    by_cases h : c.responseTick = 0
    · have hfst : (handshakeLoop sentTick (c :: rest) flag).1 =
          (handshakeLoop sentTick rest UCAN_ERROR).1 := by
        simp [handshakeLoop, h]
      rw [hfst, ih UCAN_ERROR]
      constructor
      · rintro ⟨hfalse, -⟩; exact absurd hfalse (by decide)
      · rintro ⟨-, hall⟩
        exact absurd ((hall c (List.mem_cons_self c rest)).1) (by simp [h])
    · by_cases ha : classifyStatus sentTick c.responseTick = UCAN_CONN_ACTIVE
      · have hfst : (handshakeLoop sentTick (c :: rest) flag).1 =
            (handshakeLoop sentTick rest flag).1 := by
          simp [handshakeLoop, h, ha]
        rw [hfst, ih flag]
        constructor
        · rintro ⟨hf, hall⟩
          refine ⟨hf, ?_⟩
          intro q hq
          rcases List.mem_cons.mp hq with rfl | hq
          · exact ⟨h, ha⟩
          · exact hall q hq
        · rintro ⟨hf, hall⟩
          exact ⟨hf, fun q hq => hall q (List.mem_cons_of_mem _ hq)⟩
      · have hfst : (handshakeLoop sentTick (c :: rest) flag).1 =
            (handshakeLoop sentTick rest UCAN_ERROR).1 := by
          simp [handshakeLoop, h, ha]
        rw [hfst, ih UCAN_ERROR]
        constructor
        · rintro ⟨hfalse, -⟩; exact absurd hfalse (by decide)
        · rintro ⟨-, hall⟩
          exact absurd ((hall c (List.mem_cons_self c rest)).2) ha

/-- The code's classification (IS_TIMEOUT / IS_LOST macros) agrees with
the spec's threshold description of the same delta. -/
theorem classifyStatus_eq_spec (s r : Nat) :
    classifyStatus s r = specClassify (UCAN_HANDSHAKE_TICK_DIFF s r) := by
  simp only [classifyStatus, specClassify, UCAN_HANDSHAKE_IS_TIMEOUT, UCAN_HANDSHAKE_IS_LOST,
    UCAN_HANDSHAKE_TIMEOUT_MS, UCAN_HANDSHAKE_LOST_MS, Bool.and_eq_true, decide_eq_true_eq]

/-- Claim C5: on a handle that passes the ready gate, uCAN_Handshake
writes to every responding client exactly the spec classification of the
tick delta between the node's sentTick and that client's responseTick,
leaves clients with responseTick = 0 untouched, and returns UCAN_OK
exactly when every client responded and classifies ACTIVE. -/
theorem handshake_classification (ucan : UCAN_HandleTypeDef)
    (hready : checkReady ucan.status = none) :
    (uCAN_Handshake ucan).2.node.clients =
      ucan.node.clients.map (fun c => if c.responseTick = 0 then c
        else { c with status :=
          specClassify (UCAN_HANDSHAKE_TICK_DIFF ucan.node.sentTick c.responseTick) }) ∧
    ((uCAN_Handshake ucan).1 = UCAN_OK ↔
      ∀ c ∈ ucan.node.clients, c.responseTick ≠ 0 ∧
        specClassify (UCAN_HANDSHAKE_TICK_DIFF ucan.node.sentTick c.responseTick) =
          UCAN_CONN_ACTIVE) := by
  constructor
  · simp only [uCAN_Handshake, hready]
    rw [handshakeLoop_clients]
    simp [classifyStatus_eq_spec]
  · simp only [uCAN_Handshake, hready]
    rw [handshakeLoop_flag]
    simp [classifyStatus_eq_spec]

/-- A ready master handle with one responding client, for the C5 witness. -/
def handshakeHandle : UCAN_HandleTypeDef :=
  { filter := { FilterActivation := true }
    node := { role := UCAN_ROLE_MASTER, selfId := 0, masterId := 0
              clients := [{ id := 0x100, responseTick := 100, status := UCAN_CONN_WAITING }]
              sentTick := 50 }
    txHolder := ⟨[]⟩
    rxHolder := ⟨[]⟩
    status := UCAN_OK }

/-- Witness for claim C5: the single client (delta 50, ACTIVE) is
reclassified and the aggregate status is UCAN_OK. -/
theorem handshake_classification_witness :
    (uCAN_Handshake handshakeHandle).1 = UCAN_OK ∧
    (uCAN_Handshake handshakeHandle).2.node.clients =
      [{ id := 0x100, responseTick := 100, status := UCAN_CONN_ACTIVE }] := by
  obtain ⟨hmap, hiff⟩ := handshake_classification handshakeHandle rfl
  exact ⟨hiff.mpr (by decide), by rw [hmap]; decide⟩

/-- Fallback client for positional lookups (out-of-range indices only). -/
def defaultClient : UCAN_Client :=
  { id := 0, responseTick := 0, status := UCAN_CONN_WAITING }

/-- Stamping a client's responseTick never touches any client's connection
status. -/
theorem updateFirstClient_status (now StdId : Nat) (cs : List UCAN_Client) :
    ∀ i : Nat, (((updateFirstClient now StdId cs)[i]?).getD defaultClient).status =
      ((cs[i]?).getD defaultClient).status := by
  induction cs with
  | nil => intro i; rfl
  | cons c rest ih =>
    intro i
    by_cases h : c.id = StdId <;> cases i <;> simp [updateFirstClient, h, ih]

/-- The handshake loop's classification is always one of ACTIVE, TIMEOUT,
LOST — never WAITING. -/
theorem classifyStatus_mem (s r : Nat) :
    classifyStatus s r ∈ [UCAN_CONN_ACTIVE, UCAN_CONN_TIMEOUT, UCAN_CONN_LOST] := by
  unfold classifyStatus
  split_ifs <;> simp

/-- uCAN_Runtime_UpdateHandshake never changes any client's connection
status (the master branch only stamps responseTick, the client branch only
touches the node's own sentTick). -/
theorem updateHandshake_keeps_status (node : UCAN_NodeInfo) (now StdId : Nat)
    (aData : List Nat) (halTxOk : Bool) (i : Nat) :
    (((uCAN_Runtime_UpdateHandshake node now StdId aData halTxOk).2.1.clients[i]?).getD
        defaultClient).status =
      ((node.clients[i]?).getD defaultClient).status := by
  rcases hrole : node.role with _ | _ | _ <;>
    simp only [uCAN_Runtime_UpdateHandshake, hrole] <;>
    split_ifs <;>
    simp [updateFirstClient_status]

/-- Claim C10: no operation assigns UCAN_CONN_WAITING.  After
uCAN_Handshake every client's status is either its previous value (ready
gate refused, or responseTick = 0 skipped the client) or one of ACTIVE /
TIMEOUT / LOST; and uCAN_Update (including its handshake fallback) leaves
every client's status untouched. -/
theorem handshake_never_assigns_waiting (ucan : UCAN_HandleTypeDef) (mem : Mem)
    (now : Nat) (rxMsg : Option (Nat × List Nat)) (halTxOk : Bool) (i : Nat) :
    (((uCAN_Handshake ucan).2.node.clients.getD i defaultClient).status =
        (ucan.node.clients.getD i defaultClient).status ∨
      ((uCAN_Handshake ucan).2.node.clients.getD i defaultClient).status ∈
        [UCAN_CONN_ACTIVE, UCAN_CONN_TIMEOUT, UCAN_CONN_LOST]) ∧
    ((uCAN_Update ucan mem now rxMsg halTxOk).2.1.node.clients.getD i
        defaultClient).status =
      (ucan.node.clients.getD i defaultClient).status := by
  constructor
  · cases hcr : checkReady ucan.status with
    | some e => left; simp [uCAN_Handshake, hcr]
    | none =>
      simp only [uCAN_Handshake, hcr]
      rw [handshakeLoop_clients]
      simp only [List.getD_eq_getElem?_getD, List.getElem?_map]
      cases hq : ucan.node.clients[i]? with
      | none => left; rfl
      | some c =>
        by_cases h : c.responseTick = 0
        · left; simp [h]
        · right
          simp [h]
          simpa using classifyStatus_mem ucan.node.sentTick c.responseTick
  · cases hcr : checkReady ucan.status with
    | some e => simp [uCAN_Update, hcr]
    | none =>
      cases rxMsg with
      | none => simp [uCAN_Update, hcr]
      | some msg =>
        obtain ⟨stdId, data⟩ := msg
        simp only [uCAN_Update, hcr, List.getD_eq_getElem?_getD]
        by_cases hp : (uCAN_Runtime_UpdatePacket ucan.rxHolder stdId data mem).1 =
            UCAN_ERROR_UNKNOWN_ID
        · simp [hp, updateHandshake_keeps_status]
        · by_cases hq : (uCAN_Runtime_UpdatePacket ucan.rxHolder stdId data mem).1 = UCAN_OK <;>
            simp [hp, hq]

/-- A byte plan entry has the width of its type. -/
theorem itemBytes_length (d : UCAN_Data) : (itemBytes d).length = typeSize d.type := by
  cases hd : d.type <;> simp [itemBytes, hd, typeSize]

/-- The finalized byte plan is as long as the summed type widths. -/
theorem plan_length (items : List UCAN_Data) :
    (items.foldr (fun it acc => itemBytes it ++ acc) []).length =
      (items.map (fun it => typeSize it.type)).sum := by
  induction items with
  | nil => rfl
  | cons it rest ih => simp [itemBytes_length, ih]

/-- The DLC accumulation loop is a plain sum of type widths. -/
theorem dlc_foldl (items : List UCAN_Data) :
    ∀ n : Nat, items.foldl (fun dlc it => dlc + typeSize it.type) n =
      n + (items.map (fun it => typeSize it.type)).sum := by
  induction items with
  | nil => intro n; simp
  | cons it rest ih => intro n; simp [ih]; omega

/-- uCAN_Debug_Calculate_DLC as a sum of per-item widths. -/
theorem calculateDLC_eq_sum (cfg : UCAN_PacketConfig) :
    uCAN_Debug_Calculate_DLC cfg = (cfg.items.map (fun it => typeSize it.type)).sum := by
  unfold uCAN_Debug_Calculate_DLC
  simpa using dlc_foldl cfg.items 0

/-- Writing through a byte plan leaves every address outside the plan
untouched. -/
theorem writeBytes_not_mem (addrs : List Nat) :
    ∀ (mem : Mem) (data : List Nat) (a : Nat), a ∉ addrs →
      writeBytes mem addrs data a = mem a := by
  induction addrs with
  | nil => intro mem data a _; cases data <;> rfl
  | cons b rest ih =>
    intro mem data a ha
    cases data with
    | nil => rfl
    | cons d ds =>
      have hab : a ≠ b := fun hEq => ha (hEq ▸ List.mem_cons_self b rest)
      have hrest : a ∉ rest := fun hm => ha (List.mem_cons_of_mem _ hm)
      calc writeBytes mem (b :: rest) (d :: ds) a
          = writeBytes (Function.update mem b d) rest ds a := rfl
        _ = Function.update mem b d a := ih _ ds a hrest
        _ = mem a := by rw [Function.update_noteq hab]

/-- On a duplicate-free byte plan with a payload of matching length, the
write loop stores exactly the paired payload byte at every plan address. -/
theorem writeBytes_forall₂ (addrs : List Nat) :
    ∀ (mem : Mem) (data : List Nat), addrs.Nodup → addrs.length = data.length →
      List.Forall₂ (fun a d => writeBytes mem addrs data a = d) addrs data := by
  induction addrs with
  | nil =>
    intro mem data _ hlen
    cases data with
    | nil => exact List.Forall₂.nil
    | cons d ds => exact absurd hlen (by simp)
  | cons a as ih =>
    intro mem data hnd hlen
    cases data with
    | nil => exact absurd hlen (by simp)
    | cons d ds =>
      obtain ⟨hna, hnd'⟩ := List.nodup_cons.mp hnd
      refine List.Forall₂.cons ?_ ?_
      · show writeBytes mem (a :: as) (d :: ds) a = d
        calc writeBytes mem (a :: as) (d :: ds) a
            = writeBytes (Function.update mem a d) as ds a := rfl
          _ = Function.update mem a d a := writeBytes_not_mem as _ ds a hna
          _ = d := Function.update_same a d mem
      · exact ih (Function.update mem a d) ds hnd' (by simpa using hlen)

/-- If the receive memory holds, along the receive plan, exactly the bytes
the transmit memory holds along the transmit plan (same field shapes),
then every field reads back the same value little-endian. -/
theorem readValue_forall₂ (txItems : List UCAN_Data) :
    ∀ (rxItems : List UCAN_Data) (mem mem' : Mem),
      txItems.map (fun d => d.type) = rxItems.map (fun d => d.type) →
      List.Forall₂ (fun ra ta => mem' ra = mem ta)
        (rxItems.foldr (fun it acc => itemBytes it ++ acc) [])
        (txItems.foldr (fun it acc => itemBytes it ++ acc) []) →
      List.Forall₂ (fun rd td => readValue mem' rd = readValue mem td) rxItems txItems := by
  induction txItems with
  | nil =>
    intro rxItems mem mem' htypes _
    cases rxItems with
    | nil => exact List.Forall₂.nil
    | cons rd rtl => exact absurd htypes (by simp)
  | cons td ttl ih =>
    intro rxItems mem mem' htypes hcorr
    cases rxItems with
    | nil => exact absurd htypes (by simp)
    | cons rd rtl =>
      obtain ⟨tptr, tty⟩ := td
      obtain ⟨rptr, rty⟩ := rd
      simp only [List.map_cons, List.cons.injEq] at htypes
      obtain ⟨hty, htl⟩ := htypes
      subst hty
      cases tty with
      | UCAN_U8 =>
        simp only [List.foldr_cons, itemBytes, List.cons_append, List.nil_append] at hcorr
        rw [List.forall₂_cons] at hcorr
        obtain ⟨h1, hcorr⟩ := hcorr
        exact List.Forall₂.cons (by simp [readValue, h1]) (ih rtl mem mem' htl hcorr)
      | UCAN_U16 =>
        simp only [List.foldr_cons, itemBytes, List.cons_append, List.nil_append] at hcorr
        rw [List.forall₂_cons, List.forall₂_cons] at hcorr
        obtain ⟨h1, h2, hcorr⟩ := hcorr
        exact List.Forall₂.cons (by simp [readValue, h1, h2]) (ih rtl mem mem' htl hcorr)
      | UCAN_U32 =>
        simp only [List.foldr_cons, itemBytes, List.cons_append, List.nil_append] at hcorr
        rw [List.forall₂_cons, List.forall₂_cons, List.forall₂_cons,
          List.forall₂_cons] at hcorr
        obtain ⟨h1, h2, h3, h4, hcorr⟩ := hcorr
        exact List.Forall₂.cons (by simp [readValue, h1, h2, h3, h4])
          (ih rtl mem mem' htl hcorr)

/-- Claim C1: for any pair of packet configurations with the same field
type sequence (mixed U8/U16/U32) and a receive side bound to pairwise
distinct storage bytes, finalizing both sides, assembling the payload
exactly as uCAN_Runtime_SendPacket reads it (data[i] = *bits[i] for
i < dlc), and delivering it through uCAN_Runtime_UpdatePacket against the
receive-side finalized packet succeeds and restores every field value
bit-for-bit. -/
theorem finalize_send_update_roundTrip (txCfg rxCfg : UCAN_PacketConfig) (mem rxMem : Mem)
    (htypes : txCfg.items.map (fun d => d.type) = rxCfg.items.map (fun d => d.type))
    (hnodup : (finalizeOnePacket rxCfg).bits.Nodup) :
    (roundTripUpdate txCfg rxCfg mem rxMem).1 = UCAN_OK ∧
    List.Forall₂ (fun rd td =>
        readValue (roundTripUpdate txCfg rxCfg mem rxMem).2 rd = readValue mem td)
      rxCfg.items txCfg.items := by
  have hsum : (txCfg.items.map (fun it => typeSize it.type)).sum =
      (rxCfg.items.map (fun it => typeSize it.type)).sum := by
    have h1 : txCfg.items.map (fun it => typeSize it.type) =
        (txCfg.items.map (fun d => d.type)).map typeSize := by
      rw [List.map_map]; rfl
    have h2 : rxCfg.items.map (fun it => typeSize it.type) =
        (rxCfg.items.map (fun d => d.type)).map typeSize := by
      rw [List.map_map]; rfl
    rw [h1, h2, htypes]
  have htxlen : (finalizeOnePacket txCfg).bits.length = (finalizeOnePacket txCfg).dlc := by
    simp [finalizeOnePacket, plan_length, calculateDLC_eq_sum]
  have hrxlen : (finalizeOnePacket rxCfg).bits.length = (finalizeOnePacket rxCfg).dlc := by
    simp [finalizeOnePacket, plan_length, calculateDLC_eq_sum]
  have hdlceq : (finalizeOnePacket txCfg).dlc = (finalizeOnePacket rxCfg).dlc := by
    simp [finalizeOnePacket, calculateDLC_eq_sum, hsum]
  have hfin_tx : uCAN_Debug_FinalizePacket [txCfg] 1 = [finalizeOnePacket txCfg] := rfl
  have hfin_rx : uCAN_Debug_FinalizePacket [rxCfg] 1 = [finalizeOnePacket rxCfg] := rfl
  have hpayload : (uCAN_Runtime_SendPacket mem
      ((uCAN_Debug_FinalizePacket [txCfg] 1).getD 0 { id := 0, dlc := 0, bits := [] })
      true).2.data = (finalizeOnePacket txCfg).bits.map mem := by
    rw [hfin_tx]
    simp only [uCAN_Runtime_SendPacket, frameOfPacket, List.getD_cons_zero]
    rw [List.take_of_length_le (le_of_eq htxlen)]
  have hfind : ([finalizeOnePacket rxCfg].find? (fun p => p.id == rxCfg.id)) =
      some (finalizeOnePacket rxCfg) := by
    simp [List.find?, finalizeOnePacket]
  have hplen : ((finalizeOnePacket txCfg).bits.map mem).length =
      (finalizeOnePacket rxCfg).dlc := by
    rw [List.length_map, htxlen, hdlceq]
  have hmain : roundTripUpdate txCfg rxCfg mem rxMem =
      (UCAN_OK, writeBytes rxMem (finalizeOnePacket rxCfg).bits
        ((finalizeOnePacket txCfg).bits.map mem)) := by
    unfold roundTripUpdate
    rw [hpayload, hfin_rx]
    unfold uCAN_Runtime_UpdatePacket
    rw [hfind]
    dsimp only
    rw [List.take_of_length_le (le_of_eq hrxlen),
      List.take_of_length_le (le_of_eq hplen)]
  have hlen2 : (finalizeOnePacket rxCfg).bits.length =
      ((finalizeOnePacket txCfg).bits.map mem).length := by
    rw [List.length_map, hrxlen, htxlen, hdlceq]
  have hw := writeBytes_forall₂ (finalizeOnePacket rxCfg).bits rxMem
    ((finalizeOnePacket txCfg).bits.map mem) hnodup hlen2
  have hcorr := List.forall₂_map_right_iff.mp hw
  refine ⟨by rw [hmain], ?_⟩
  rw [hmain]
  exact readValue_forall₂ txCfg.items rxCfg.items mem _ htypes hcorr

/-- Transmit-side configuration for the C1 witness: one U8, one U16, one
U32 field. -/
def txCfgW : UCAN_PacketConfig :=
  { id := 0x100
    items := [{ ptr := 10, type := UCAN_U8 }, { ptr := 20, type := UCAN_U16 },
              { ptr := 30, type := UCAN_U32 }] }

/-- Receive-side configuration for the C1 witness: matching type sequence
bound to distinct storage. -/
def rxCfgW : UCAN_PacketConfig :=
  { id := 0x200
    items := [{ ptr := 100, type := UCAN_U8 }, { ptr := 110, type := UCAN_U16 },
              { ptr := 120, type := UCAN_U32 }] }

/-- Transmit-side storage for the C1 witness. -/
def memW : Mem := fun a => (3 * a + 5) % 256

/-- Witness for claim C1 at the concrete mixed-type configuration. -/
theorem finalize_send_update_roundTrip_witness :
    (roundTripUpdate txCfgW rxCfgW memW (fun _ => 0)).1 = UCAN_OK ∧
    List.Forall₂ (fun rd td =>
        readValue (roundTripUpdate txCfgW rxCfgW memW (fun _ => 0)).2 rd = readValue memW td)
      rxCfgW.items txCfgW.items :=
  finalize_send_update_roundTrip txCfgW rxCfgW memW (fun _ => 0) (by decide) (by decide)
